import Mathlib

/-!
Verification of the Classic-Kia-Lead-Exporter transformer (`src/main.py`).

The development shallowly embeds the two functions the claims are about:

* `generate_adf_xml` (main.py lines 49-145): a pure function from a list of
  JSON-like lead records to an ADF XML document, embedded here as a function
  from `List Value` to `Except PyErr (Option String × List String)` (the
  `Option String` is the serialized document or `None`, the `List String`
  the diagnostics the function logs, and `Except` models the Python
  exceptions (`AttributeError`, `TypeError`) that escape the function).

* `handle_webhook` (main.py lines 164-205): the Flask endpoint, embedded as
  a state-transition function on the process-lifetime `processed_leads` set,
  returning the new state, the HTTP response and the list of side effects
  (file write, e-mail, shutdown signal) performed.

JSON-like Python values are embedded as the inductive `Value` (JSON numbers
are modelled as integers; floats do not occur in any claim).
-/

/-- JSON-like Python value: the payloads `request.get_json()` can produce and
the values a lead record's fields can hold. -/
inductive Value where
  | VNull : Value
  | VBool : Bool → Value
  | VInt : Int → Value
  | VStr : String → Value
  | VList : List Value → Value
  | VDict : List (String × Value) → Value
deriving Repr

open Value

/-- Python exception classes that can escape `generate_adf_xml` or the
body of `handle_webhook`'s `try` block in this program. -/
inductive PyErr where
  | attributeError : PyErr
  | typeError : PyErr
deriving DecidableEq, Repr

/-- Python truthiness (`if value:`) of an embedded value. -/
def truthy : Value → Bool
  | VNull => false
  | VBool b => b
  | VInt n => !(n == 0)
  | VStr s => !s.isEmpty
  | VList l => !l.isEmpty
  | VDict d => !d.isEmpty

/-- Single quote character, used when rendering Python `repr` of strings. -/
def sQuote : String := String.singleton (Char.ofNat 39)

/-- Escaping of one character inside Python string `repr` (the common cases;
control characters other than newline/CR/tab are passed through, a corner no
value in this development reaches). -/
def escRchar (c : Char) : String :=
  if c = Char.ofNat 92 then "\\\\"
  else if c = Char.ofNat 39 then "\\" ++ sQuote
  else if c = Char.ofNat 10 then "\\n"
  else if c = Char.ofNat 13 then "\\r"
  else if c = Char.ofNat 9 then "\\t"
  else String.singleton c

/-- Python `repr` of a string (always single-quoted; CPython's preference
for double quotes when the string contains a quote is a corner no value in
this development reaches). -/
def strRepr (s : String) : String :=
  sQuote ++ String.join (s.toList.map escRchar) ++ sQuote

mutual
/-- Python `repr` of a value (used by `str` on lists and dicts). -/
def pyRepr : Value → String
  | VNull => "None"
  | VBool true => "True"
  | VBool false => "False"
  | VInt n => toString n
  | VStr s => strRepr s
  | VList l => "[" ++ pyReprArgs l ++ "]"
  | VDict d => "\x7b" ++ pyReprItems d ++ "\x7d"
/-- Comma-separated `repr`s of the elements of a Python list. -/
def pyReprArgs : List Value → String
  | [] => ""
  | [v] => pyRepr v
  | v :: rest => pyRepr v ++ ", " ++ pyReprArgs rest
/-- Comma-separated `key: value` `repr`s of the items of a Python dict. -/
def pyReprItems : List (String × Value) → String
  | [] => ""
  | [(k, v)] => strRepr k ++ ": " ++ pyRepr v
  | (k, v) :: rest => strRepr k ++ ": " ++ pyRepr v ++ ", " ++ pyReprItems rest
end

/-- Python `str()` of a value (`str` on a container falls back to `repr`). -/
def pyStr : Value → String
  | VNull => "None"
  | VBool true => "True"
  | VBool false => "False"
  | VInt n => toString n
  | VStr s => s
  | VList l => pyRepr (VList l)
  | VDict d => pyRepr (VDict d)

/-- Python `d.get(key, default)` on a dict embedded as an association list
(dict keys are unique, so first-match lookup is the dict's lookup). -/
def dGet (d : List (String × Value)) (k : String) (dflt : Value) : Value :=
  (d.lookup k).getD dflt

/-- Python `value.get(key, default)`: an `AttributeError` unless `value`
is a dict. -/
def cGet (v : Value) (k : String) (dflt : Value) : Except PyErr Value :=
  match v with
  | VDict d => .ok (dGet d k dflt)
  | _ => .error .attributeError

/-- An lxml attribute value must be a string; anything else raises
`TypeError` at the `SubElement` call. -/
def asAttrStr : Value → Except PyErr String
  | VStr s => .ok s
  | _ => .error .typeError

/-- Assignment `.text = value` where lxml requires a string (the value was
already checked truthy, so `None` cannot occur): `TypeError` otherwise. -/
def asTextStrict : Value → Except PyErr String
  | VStr s => .ok s
  | _ => .error .typeError

/-- Assignment `.text = value` where `None` is also accepted by lxml
(meaning: no text): `TypeError` for any other non-string. -/
def asTextOpt : Value → Except PyErr (Option String)
  | VStr s => .ok (some s)
  | VNull => .ok none
  | _ => .error .typeError

/-- main.py line 66: `lead.get("createdAt", "")[:19]`. Slicing a non-string
(or assigning the sliced non-string to `.text`) raises `TypeError`; on a
string it keeps the first 19 characters (Python slices by code point, hence
the character-list implementation). -/
def sliceCreatedAt : Value → Except PyErr String
  | VStr s => .ok (String.mk (s.toList.take 19))
  | _ => .error .typeError

/-- Python iteration `for x in value:` — lists yield their elements, strings
their characters, dicts their keys; other values raise `TypeError`. -/
def pyIter : Value → Except PyErr (List Value)
  | VList l => .ok l
  | VStr s => .ok (s.toList.map (fun c => VStr (String.singleton c)))
  | VDict d => .ok (d.map (fun kv => VStr kv.1))
  | _ => .error .typeError

/-- Sequential effectful map, stopping at the first error — the semantics of
a Python `for` loop whose body may raise. -/
def mapME (f : α → Except ε β) : List α → Except ε (List β)
  | [] => .ok []
  | a :: l => do
    let b ← f a
    let bs ← mapME f l
    .ok (b :: bs)

/-- An lxml element: tag, attributes in insertion order, optional text,
children in insertion order. -/
inductive Xml where
  | elem : String → List (String × String) → Option String → List Xml → Xml
deriving Repr

/-- Tag of an element. -/
def tagOf : Xml → String
  | .elem t _ _ _ => t

/-- Attribute list of an element. -/
def attrsOf : Xml → List (String × String)
  | .elem _ a _ _ => a

/-- Children of an element. -/
def childrenOf : Xml → List Xml
  | .elem _ _ _ c => c

/-- Whether an element has a direct child with the given tag. -/
def hasChildTag (x : Xml) (t : String) : Bool :=
  (childrenOf x).any (fun c => tagOf c == t)

/-- Option as a zero-or-one-element list of children. -/
def optList : Option Xml → List Xml
  | none => []
  | some x => [x]

/-- lxml text escaping. -/
def escText (s : String) : String :=
  ((s.replace "&" "&amp;").replace "<" "&lt;").replace ">" "&gt;"

/-- lxml attribute-value escaping (lxml additionally turns tabs and newlines
into character references, which no attribute in this program contains). -/
def escAttr (s : String) : String :=
  ((s.replace "&" "&amp;").replace "<" "&lt;").replace "\"" "&quot;"

/-- Rendering of an attribute list, one leading space per attribute. -/
def attrText (attrs : List (String × String)) : String :=
  String.join (attrs.map (fun kv => " " ++ kv.1 ++ "=\"" ++ escAttr kv.2 ++ "\""))

/-- Two-space indentation, as produced by lxml `pretty_print`. -/
def padN (n : Nat) : String :=
  String.join (List.replicate n "  ")

mutual
/-- Lines of the lxml `pretty_print` serialization of one element. An
element with text set (even empty text) is printed inline; an element with
children and no text gets its children on indented lines; an element with
neither is collapsed to a self-closing tag. (No element built by this
program carries both text and children.) -/
def xmlLines (ind : Nat) : Xml → List String
  | .elem tag attrs txt children =>
    match txt, children with
    | none, [] => [padN ind ++ "<" ++ tag ++ attrText attrs ++ "/>"]
    | some t, [] =>
        [padN ind ++ "<" ++ tag ++ attrText attrs ++ ">" ++ escText t ++ "</" ++ tag ++ ">"]
    | none, c :: cs =>
        (padN ind ++ "<" ++ tag ++ attrText attrs ++ ">")
          :: xmlLinesList (ind + 1) (c :: cs) ++ [padN ind ++ "</" ++ tag ++ ">"]
    | some t, c :: cs =>
        (padN ind ++ "<" ++ tag ++ attrText attrs ++ ">" ++ escText t)
          :: xmlLinesList (ind + 1) (c :: cs) ++ [padN ind ++ "</" ++ tag ++ ">"]
/-- Serialization of a list of sibling elements. -/
def xmlLinesList (ind : Nat) : List Xml → List String
  | [] => []
  | x :: xs => xmlLines ind x ++ xmlLinesList ind xs
end

/-- The XML declaration lxml writes for `encoding="utf-8", xml_declaration=True`. -/
def xmlDecl : String :=
  "<?xml version=" ++ sQuote ++ "1.0" ++ sQuote ++ " encoding=" ++ sQuote ++ "utf-8" ++ sQuote ++ "?>"

/-- main.py line 145: `etree.tostring(root, pretty_print=True,
encoding="utf-8", xml_declaration=True)`, as a string of the emitted bytes. -/
def tostring (root : Xml) : String :=
  String.intercalate "\n" (xmlDecl :: xmlLines 0 root) ++ "\n"

/-- Python `str.split(sep)` at the character level: splits on every
occurrence of the separator, keeping empty pieces. -/
def splitCh (sep : Char) : List Char → List (List Char)
  | [] => [[]]
  | c :: cs =>
    let r := splitCh sep cs
    if c = sep then [] :: r
    else
      match r with
      | [] => [[c]]
      | w :: ws => (c :: w) :: ws

/-- main.py line 77: `key.split(" ")[1].lower()` — the element tag derived
from the source field name ("Vehicle Year" becomes "year", and so on). -/
def lowerTag (key : String) : String :=
  String.mk (((splitCh (Char.ofNat 32) key.toList).getD 1 []).map Char.toLower)

/-- main.py lines 74-77: the year/make/model children, one per truthy value,
with text `str(value)`. -/
def ymmElems (dv : List (String × Value)) : List Xml :=
  ["Vehicle Year", "Vehicle Make", "Vehicle Model"].filterMap (fun key =>
    let v := dGet dv key (VStr "")
    if truthy v then some (Xml.elem (lowerTag key) [] (some (pyStr v)) []) else none)

/-- main.py lines 71-78: the `vehicle` element. Line 71 defaults
`Additional Info` to `{}`; line 73's `vehicle_info.get` raises
`AttributeError` when `vehicle_info` is not a dict. The element is created
unconditionally with fixed attributes `interest="buy"`, `status="used"`; a
`vin` child is always emitted (its text may be absent when the VIN value is
`None`); year/make/model children are emitted only for truthy values; an
empty `stock` child is always appended last. -/
def buildVehicle (vehicleInfo : Value) : Except PyErr Xml :=
  match vehicleInfo with
  | VDict dv => do
    let vinT ← asTextOpt (dGet dv "Vehicle Vin" (VStr ""))
    .ok (Xml.elem "vehicle" [("interest", "buy"), ("status", "used")] none
      (Xml.elem "vin" [] vinT [] :: ymmElems dv ++ [Xml.elem "stock" [] (some "") []]))
  | _ => .error .attributeError

/-- main.py lines 83-95 loop body: one contact child, emitted only when the
value is truthy; the `.text = value` assignment requires a string. -/
def contactEntry (tag : String) (attrs : List (String × String)) (v : Value) :
    Except PyErr (Option Xml) :=
  if truthy v then do
    let t ← asTextStrict v
    .ok (some (Xml.elem tag attrs (some t) []))
  else .ok none

/-- main.py lines 83-95: children of the `contact` element, in loop order —
firstName, lastName, email (the email element carries an empty `part`
attribute, exactly as the source writes it), then the three phone kinds in
the dict-literal order home, mobile (cellPhone), work. -/
def contactChildrenOf (d : List (String × Value)) : Except PyErr (List Xml) := do
  let f ← contactEntry "name" [("part", "first"), ("type", "individual")]
    (dGet d "firstName" (VStr ""))
  let l ← contactEntry "name" [("part", "last"), ("type", "individual")]
    (dGet d "lastName" (VStr ""))
  let e ← contactEntry "email" [("part", ""), ("type", "individual")]
    (dGet d "email" (VStr ""))
  let ph ← contactEntry "phone" [("type", "home")] (dGet d "homePhone" (VStr ""))
  let pm ← contactEntry "phone" [("type", "mobile")] (dGet d "cellPhone" (VStr ""))
  let pw ← contactEntry "phone" [("type", "work")] (dGet d "workPhone" (VStr ""))
  .ok (([f, l, e, ph, pm, pw].filterMap id))

/-- main.py lines 98-100: the first `comments` child of `customer`, from the
`AI Memory` field, only when truthy. -/
def comments1Of (d : List (String × Value)) : Except PyErr (Option Xml) :=
  let c := dGet d "AI Memory" (VStr "")
  if truthy c then do
    let t ← asTextStrict c
    .ok (some (Xml.elem "comments" [] (some t) []))
  else .ok none

/-- main.py lines 121-126: the second `comments` child of `customer`:
`lead.get("CUSTOMER", {}).get("COMMENTS", "")` (an `AttributeError` when
`CUSTOMER` is not a dict), concatenated through an f-string with the
`Chat GPT` field when that is truthy, and emitted only when the combined
value is truthy. -/
def comments2Of (d : List (String × Value)) : Except PyErr (Option Xml) := do
  let c0 ← cGet (dGet d "CUSTOMER" (VDict [])) "COMMENTS" (VStr "")
  let ai := dGet d "Chat GPT" (VStr "")
  let c1 := if truthy ai then VStr (pyStr c0 ++ "\n\nAI Memory:\n" ++ pyStr ai) else c0
  if truthy c1 then do
    let t ← asTextStrict c1
    .ok (some (Xml.elem "comments" [] (some t) []))
  else .ok none

/-- main.py lines 129-132: the optional second `vendor` element, from
`lead.get("VENDOR", {}).get("VENDORNAME", "")`, only when truthy. -/
def vendor2Of (d : List (String × Value)) : Except PyErr (Option Xml) := do
  let vn ← cGet (dGet d "VENDOR" (VDict [])) "VENDORNAME" (VStr "")
  if truthy vn then do
    let t ← asTextStrict vn
    .ok (some (Xml.elem "vendor" [] none [Xml.elem "vendorname" [] (some t) []]))
  else .ok none

/-- main.py lines 141-143: one `tag` element per item of the `tags` value
(defaulting to `[]`), iterated with Python semantics; each item is assigned
to `.text` directly, so it must be a string (or `None`). -/
def tagsOf (d : List (String × Value)) : Except PyErr (List Xml) := do
  let items ← pyIter (dGet d "tags" (VList []))
  mapME (fun tv => do
    let t ← asTextOpt tv
    .ok (Xml.elem "tag" [] t [])) items

/-- The per-record data `generate_adf_xml` extracts from one lead before the
final tree shape is fixed. -/
structure Parts where
  sourceS : String
  idText : String
  requestDate : String
  vehicle : Xml
  contactChildren : List Xml
  comments1 : Option Xml
  comments2 : Option Xml
  vendor2 : Option Xml
  tagElems : List Xml

/-- Extraction of the per-record data, in the exact statement order of
main.py lines 61-143, so the first failing access determines the exception
that escapes (the static vendor/provider blocks in between cannot fail). -/
def prospectParts (d : List (String × Value)) : Except PyErr Parts := do
  let sourceS ← asAttrStr (dGet d "Contact Source" (VStr ""))
  let idText := pyStr (dGet d "id" (VStr ""))
  let requestDate ← sliceCreatedAt (dGet d "createdAt" (VStr ""))
  let vehicle ← buildVehicle (dGet d "Additional Info" (VDict []))
  let cc ← contactChildrenOf d
  let c1 ← comments1Of d
  let c2 ← comments2Of d
  let v2 ← vendor2Of d
  let tg ← tagsOf d
  .ok ⟨sourceS, idText, requestDate, vehicle, cc, c1, c2, v2, tg⟩

/-- main.py lines 103-108: the static vendor block. -/
def vendorStatic : Xml :=
  Xml.elem "vendor" [] none
    [Xml.elem "vendorname" [] (some "Your Dealership Name") [],
     Xml.elem "contact" [] none
       [Xml.elem "name" [("part", "full")] (some "Your Dealership Name") [],
        Xml.elem "email" [] (some "your_dealership_email@example.com") [],
        Xml.elem "phone" [("type", "business")] (some "Your Dealership Phone") []]]

/-- main.py lines 111-113: the static first provider block. -/
def providerStatic1 : Xml :=
  Xml.elem "provider" [] none
    [Xml.elem "name" [("part", "full")] (some "VinSolutions") [],
     Xml.elem "service" [] (some "VinSolutions Lead Service") []]

/-- main.py lines 135-137: the static second provider block. -/
def providerStatic2 : Xml :=
  Xml.elem "provider" [] none
    [Xml.elem "name" [("part", "full")] (some "VERBLEAD") [],
     Xml.elem "service" [] (some "AI Sales") []]

/-- Final shape of one `prospect` subtree, main.py lines 57-143: the first
`id` (sequence="uniqueLeadId"), `requestdate`, `vehicle`, `customer`
(holding `contact` and the comments appended to it later in the source),
the static vendor block, the static first provider block, the second `id`
(sequence="1", source="VERBLEAD"), the optional second vendor, the static
second provider, and the `tag` elements. -/
def assembleProspect (p : Parts) : Xml :=
  Xml.elem "prospect" [] none
    ([Xml.elem "id" [("sequence", "uniqueLeadId"), ("source", p.sourceS)]
        (some p.idText) [],
      Xml.elem "requestdate" [] (some p.requestDate) [],
      p.vehicle,
      Xml.elem "customer" [] none
        (Xml.elem "contact" [] none p.contactChildren
          :: (optList p.comments1 ++ optList p.comments2)),
      vendorStatic,
      providerStatic1,
      Xml.elem "id" [("sequence", "1"), ("source", "VERBLEAD")] (some p.idText) []]
     ++ optList p.vendor2 ++ [providerStatic2] ++ p.tagElems)

/-- One iteration of the loop at main.py lines 56-143: the first attribute
access on a non-dict lead (line 61's `lead.get`) raises `AttributeError`;
on a dict, the per-record data is extracted and assembled. -/
def buildProspect (lead : Value) : Except PyErr Xml :=
  match lead with
  | VDict d => (prospectParts d).map assembleProspect
  | _ => .error .attributeError

/-- main.py lines 55-143: the `adf` root with one prospect per lead, in
input order; the loop stops at the first exception, which propagates. -/
def adfRoot (leads : List Value) : Except PyErr Xml :=
  (mapME buildProspect leads).map (fun ps => Xml.elem "adf" [] none ps)

/-- main.py lines 49-145, `generate_adf_xml`: on a falsy (empty) list it
logs a warning and returns `None`; otherwise it builds the tree and returns
the pretty-printed serialization. The second component collects the
diagnostics logged. -/
def generate_adf_xml (leads_data : List Value) :
    Except PyErr (Option String × List String) :=
  if leads_data.isEmpty then
    .ok (none, ["No leads found in the API response."])
  else
    (adfRoot leads_data).map (fun root => (some (tostring root), []))

/-- Python `==` between two values as used by set membership: `True == 1`
and `False == 0` hold across the bool/int types; other cross-type pairs are
unequal. Lists and dicts are unhashable, so they never reach the dedup set
(`handle_webhook` turns the `TypeError` of the membership test into a 400
before any comparison); their comparison result here is never observed. -/
def pyEq (a b : Value) : Bool :=
  match a, b with
  | VNull, VNull => true
  | VBool x, VBool y => x == y
  | VInt m, VInt n => m == n
  | VBool x, VInt n => (if x then (1 : Int) else 0) == n
  | VInt n, VBool x => n == (if x then (1 : Int) else 0)
  | VStr s, VStr t => s == t
  | _, _ => false

/-- Whether a value is hashable in Python (lists and dicts are not); the
membership test `lead_id in processed_leads` raises `TypeError` on an
unhashable id. -/
def hashable : Value → Bool
  | VList _ => false
  | VDict _ => false
  | _ => true

/-- Membership in the dedup set, embedded as a list with Python equality. -/
def pyMem (v : Value) (s : List Value) : Bool :=
  s.any (pyEq v)

/-- The process-lifetime mutable state of main.py: the `processed_leads`
set (line 160), as the list of ids in insertion order. -/
structure ServerState where
  processed_leads : List Value

/-- Observable side effects of one webhook request: the file write
(line 184), the e-mail submission (lines 187-192; `send_email` swallows its
own failures, so the submission attempt is the observable), and setting the
shutdown event (line 194). -/
inductive Effect where
  | writeFile (path : String) (contents : String) : Effect
  | sendEmail (recipient subject attachment : String) : Effect
  | setShutdownEvent : Effect
deriving DecidableEq, Repr

/-- A `jsonify`-style response: HTTP status, the single JSON key
("message" or "error") and its string value. -/
structure HttpResponse where
  status : Nat
  key : String
  message : String
deriving DecidableEq, Repr

/-- main.py lines 200-205: `ValueError`/`KeyError`/`TypeError` are answered
with 400 "Error processing lead"; any other exception (notably
`AttributeError`) falls to the generic 500 handler. -/
def errToResponse : PyErr → HttpResponse
  | .typeError => ⟨400, "error", "Error processing lead"⟩
  | .attributeError => ⟨500, "error", "Internal Server Error"⟩

/-- The 200 response of the duplicate branch (main.py line 177). -/
def dupResponse : HttpResponse :=
  ⟨200, "message", "Duplicate lead, ignoring"⟩

/-- main.py lines 164-205, `handle_webhook`, on an already parsed JSON body
(`request.get_json()` failures happen before this logic and are out of
scope). A falsy body is rejected with 400; `lead_data.get("id")` raises
`AttributeError` (500) on a non-dict body; an unhashable id makes the
membership test raise `TypeError` (400); a known id short-circuits to the
duplicate response with no effects; otherwise the id is added to the set
BEFORE the transformer runs, and the transformer's outcome selects the
success path (write + e-mail + shutdown), the error mapping, or the
no-document 400. -/
def handle_webhook (importEmail : String) (st : ServerState) (lead_data : Value) :
    ServerState × HttpResponse × List Effect :=
  if truthy lead_data = false then
    (st, ⟨400, "error", "Invalid or empty JSON payload"⟩, [])
  else
    match lead_data with
    | VDict d =>
      let lead_id := dGet d "id" VNull
      if hashable lead_id = false then
        (st, ⟨400, "error", "Error processing lead"⟩, [])
      else if pyMem lead_id st.processed_leads then
        (st, dupResponse, [])
      else
        let st' : ServerState := ⟨st.processed_leads ++ [lead_id]⟩
        match generate_adf_xml [lead_data] with
        | .error e => (st', errToResponse e, [])
        | .ok (some xml, _) =>
          (st', ⟨200, "message", "Lead processed successfully"⟩,
           [.writeFile "lead_export.xml" xml,
            .sendEmail importEmail "New Lead from GHL" "lead_export.xml",
            .setShutdownEvent])
        | .ok (none, _) =>
          (st', ⟨400, "error", "Error processing lead (no valid ADF XML generated)"⟩, [])
    | _ => (st, errToResponse .attributeError, [])

/-- The optional top-level keys `generate_adf_xml` reads besides `id`. -/
def optionalLeadKeys : List String :=
  ["Contact Source", "createdAt", "Additional Info", "firstName", "lastName",
   "email", "homePhone", "cellPhone", "workPhone", "AI Memory", "CUSTOMER",
   "Chat GPT", "VENDOR", "tags"]

/-- The prospect subtree produced for a record whose only populated field is
the identifier (text `s`): both `id` elements plus the unconditionally
emitted structure — empty `requestdate`, the `vehicle` element with empty
`vin` and empty `stock`, a `customer` holding an empty `contact`, the static
vendor block and both static provider blocks. -/
def idOnlyProspect (s : String) : Xml :=
  Xml.elem "prospect" [] none
    [Xml.elem "id" [("sequence", "uniqueLeadId"), ("source", "")] (some s) [],
     Xml.elem "requestdate" [] (some "") [],
     Xml.elem "vehicle" [("interest", "buy"), ("status", "used")] none
       [Xml.elem "vin" [] (some "") [], Xml.elem "stock" [] (some "") []],
     Xml.elem "customer" [] none [Xml.elem "contact" [] none []],
     vendorStatic,
     providerStatic1,
     Xml.elem "id" [("sequence", "1"), ("source", "VERBLEAD")] (some s) [],
     providerStatic2]

/-- Whether a value is a string-keyed mapping. -/
def isMapping : Value → Bool
  | VDict _ => true
  | _ => false

/-- C5. Given the empty input sequence, `generate_adf_xml` returns `None`
(no document, not an empty XML shell) and logs the warning diagnostic. -/
theorem generate_adf_xml_empty_input :
    generate_adf_xml [] = .ok (none, ["No leads found in the API response."]) := rfl

/-- C6. `generate_adf_xml` is deterministic: two applications to the same
sequence of records produce the same (byte-identical) result; the
transformer introduces no timestamps or random identifiers. -/
theorem generate_adf_xml_deterministic :
    ∀ (leads : List Value) (r1 r2 : Except PyErr (Option String × List String)),
      generate_adf_xml leads = r1 → generate_adf_xml leads = r2 → r1 = r2 := by
  intro leads r1 r2 h1 h2
  rw [← h1, ← h2]

/-- Witness for C6 at a concrete record. -/
theorem generate_adf_xml_deterministic_witness :
    generate_adf_xml [VDict [("id", VStr "42")]]
      = generate_adf_xml [VDict [("id", VStr "42")]] :=
  generate_adf_xml_deterministic [VDict [("id", VStr "42")]] _ _ rfl rfl

/-- C1 (amended). For every record in which no optional field is populated
beyond the identifier, the emitted prospect contains the two `id` elements
carrying the identifier plus the unconditionally emitted fixed structure —
an empty `requestdate`, the `vehicle` element with empty `vin` and the
placeholder empty `stock`, a `customer` holding an empty `contact`, the
static vendor block and the two static provider blocks — and no element for
any absent optional field (names, e-mail, phones, comments, tags,
year/make/model, second vendor). -/
theorem prospect_id_only_skeleton :
    ∀ (d : List (String × Value)) (s : String),
      (∀ k ∈ optionalLeadKeys, d.lookup k = none) →
      d.lookup "id" = some (VStr s) →
      buildProspect (VDict d) = .ok (idOnlyProspect s) := by
  intro d s hnone hid
  have h1 : dGet d "Contact Source" (VStr "") = VStr "" := by
    rw [dGet, hnone _ (by simp [optionalLeadKeys])]; rfl
  have h2 : dGet d "createdAt" (VStr "") = VStr "" := by
    rw [dGet, hnone _ (by simp [optionalLeadKeys])]; rfl
  have h3 : dGet d "Additional Info" (VDict []) = VDict [] := by
    rw [dGet, hnone _ (by simp [optionalLeadKeys])]; rfl
  have h4 : dGet d "firstName" (VStr "") = VStr "" := by
    rw [dGet, hnone _ (by simp [optionalLeadKeys])]; rfl
  have h5 : dGet d "lastName" (VStr "") = VStr "" := by
    rw [dGet, hnone _ (by simp [optionalLeadKeys])]; rfl
  have h6 : dGet d "email" (VStr "") = VStr "" := by
    rw [dGet, hnone _ (by simp [optionalLeadKeys])]; rfl
  have h7 : dGet d "homePhone" (VStr "") = VStr "" := by
    rw [dGet, hnone _ (by simp [optionalLeadKeys])]; rfl
  have h8 : dGet d "cellPhone" (VStr "") = VStr "" := by
    rw [dGet, hnone _ (by simp [optionalLeadKeys])]; rfl
  have h9 : dGet d "workPhone" (VStr "") = VStr "" := by
    rw [dGet, hnone _ (by simp [optionalLeadKeys])]; rfl
  have h10 : dGet d "AI Memory" (VStr "") = VStr "" := by
    rw [dGet, hnone _ (by simp [optionalLeadKeys])]; rfl
  have h11 : dGet d "CUSTOMER" (VDict []) = VDict [] := by
    rw [dGet, hnone _ (by simp [optionalLeadKeys])]; rfl
  have h12 : dGet d "Chat GPT" (VStr "") = VStr "" := by
    rw [dGet, hnone _ (by simp [optionalLeadKeys])]; rfl
  have h13 : dGet d "VENDOR" (VDict []) = VDict [] := by
    rw [dGet, hnone _ (by simp [optionalLeadKeys])]; rfl
  have h14 : dGet d "tags" (VList []) = VList [] := by
    rw [dGet, hnone _ (by simp [optionalLeadKeys])]; rfl
  have hidv : dGet d "id" (VStr "") = VStr s := by
    rw [dGet, hid]; rfl
  simp only [buildProspect, prospectParts, contactChildrenOf, comments1Of,
    comments2Of, vendor2Of, tagsOf, buildVehicle,
    h1, h2, h3, h4, h5, h6, h7, h8, h9, h10, h11, h12, h13, h14, hidv]
  rfl

/-- Witness for C1 (amended) at the concrete record `{"id": "42"}`. -/
theorem prospect_id_only_skeleton_witness :
    buildProspect (VDict [("id", VStr "42")]) = .ok (idOnlyProspect "42") :=
  prospect_id_only_skeleton [("id", VStr "42")] "42"
    (by intro k hk; fin_cases hk <;> rfl) rfl

/-- Counterexample to C1 as stated: on the record `{"id": "42"}` the emitted
prospect does NOT contain only `id` elements and the documented `stock`
placeholder — an empty `requestdate` element (absent `createdAt`), among
other fixed elements, is emitted anyway. -/
theorem prospect_id_only_counterexample :
    ¬ (∀ p, buildProspect (VDict [("id", VStr "42")]) = .ok p →
        ∀ c ∈ childrenOf p, tagOf c = "id" ∨ tagOf c = "stock") := by
  intro h
  have hmem : Xml.elem "requestdate" [] (some "") []
      ∈ childrenOf (idOnlyProspect "42") :=
    List.mem_cons_of_mem _ (List.mem_cons_self _ _)
  exact absurd (h (idOnlyProspect "42") rfl _ hmem) (by decide)

/-- A non-mapping lead fails at its first attribute access (main.py
line 61's `lead.get`). -/
theorem buildProspect_nonmapping (l : Value) (h : isMapping l = false) :
    buildProspect l = .error .attributeError := by
  cases l <;> simp_all [isMapping, buildProspect]

/-- A failing element makes the whole sequential map fail. -/
theorem mapME_isError_of_mem (f : α → Except ε β) (xs : List α) (x : α)
    (hx : x ∈ xs) (he : ∃ e, f x = .error e) :
    ∃ e, mapME f xs = .error e := by
  induction xs with
  | nil => cases hx
  | cons y ys ih =>
    rcases he with ⟨e, he⟩
    cases hfy : f y with
    | error e2 => exact ⟨e2, by simp [mapME, hfy, Bind.bind, Except.bind]⟩
    | ok b =>
      rcases List.mem_cons.mp hx with rfl | hx2
      · rw [hfy] at he; cases he
      · rcases ih hx2 with ⟨e3, h3⟩
        exact ⟨e3, by simp [mapME, hfy, h3, Bind.bind, Except.bind]⟩

/-- C2 (amended). A malformed (non-mapping) record in the input sequence
makes `generate_adf_xml` raise, aborting the whole batch with no output —
the error value carries no document, so nothing partial is ever written —
while a mapping record missing every optional field, including the
identifier, any name and any contact channel, still yields a prospect
element (the fixed skeleton). -/
theorem generate_malformed_record_aborts_batch :
    (∀ leads, (∃ l ∈ leads, isMapping l = false) →
      ∃ e, generate_adf_xml leads = .error e)
    ∧ buildProspect (VDict []) = .ok (idOnlyProspect "") := by
  constructor
  · intro leads hex
    rcases hex with ⟨l, hl, hm⟩
    have hne : leads.isEmpty = false := by
      rcases leads with _ | ⟨a, as⟩
      · cases hl
      · rfl
    rcases mapME_isError_of_mem buildProspect leads l hl
        ⟨.attributeError, buildProspect_nonmapping l hm⟩ with ⟨e, he⟩
    exact ⟨e, by simp [generate_adf_xml, hne, adfRoot, he, Except.map]⟩
  · rfl

/-- Witness for C2 (amended) at the concrete non-mapping input `"oops"`. -/
theorem generate_malformed_record_aborts_batch_witness :
    (∃ e, generate_adf_xml [VStr "oops"] = .error e)
    ∧ buildProspect (VDict []) = .ok (idOnlyProspect "") :=
  ⟨generate_malformed_record_aborts_batch.1 [VStr "oops"]
      ⟨VStr "oops", List.Mem.head _, rfl⟩,
   generate_malformed_record_aborts_batch.2⟩

/-- Counterexample to C2 as stated: one malformed record (the non-mapping
`"oops"` in second position) aborts the whole batch — `generate_adf_xml`
raises `AttributeError` and emits nothing, not even a prospect for the
well-formed first record. -/
theorem generate_malformed_aborts_counterexample :
    generate_adf_xml [VDict [("id", VStr "1")], VStr "oops"]
      = .error .attributeError := rfl

/-- The vehicle subtree extracted by `prospectParts` is exactly the result
of `buildVehicle` on the record's `Additional Info` value. -/
theorem prospectParts_vehicle {d : List (String × Value)} {parts : Parts}
    (h : prospectParts d = .ok parts) :
    buildVehicle (dGet d "Additional Info" (VDict [])) = .ok parts.vehicle := by
  simp only [prospectParts, Bind.bind, Except.bind] at h
  repeat' split at h
  all_goals cases h
  all_goals simp_all

/-- A successfully built vehicle subtree is tagged `vehicle`. -/
theorem buildVehicle_tag {vi : Value} {v : Xml} (h : buildVehicle vi = .ok v) :
    tagOf v = "vehicle" := by
  cases vi with
  | VDict dv =>
    simp only [buildVehicle, Bind.bind, Except.bind] at h
    split at h
    · cases h
    · cases h; rfl
  | VNull => cases h
  | VBool b => cases h
  | VInt n => cases h
  | VStr s => cases h
  | VList l => cases h

/-- Shape of a successfully built vehicle subtree: fixed attributes, `vin`
first, year/make/model as present, empty `stock` last. -/
theorem buildVehicle_dict_shape {dv : List (String × Value)} {v : Xml}
    (h : buildVehicle (VDict dv) = .ok v) :
    ∃ vinT, asTextOpt (dGet dv "Vehicle Vin" (VStr "")) = .ok vinT
      ∧ v = Xml.elem "vehicle" [("interest", "buy"), ("status", "used")] none
          (Xml.elem "vin" [] vinT []
            :: ymmElems dv ++ [Xml.elem "stock" [] (some "") []]) := by
  simp only [buildVehicle, Bind.bind, Except.bind] at h
  split at h
  · cases h
  · cases h
    rename_i vinT heq
    exact ⟨vinT, heq, rfl⟩

/-- The derived tag of the year field. -/
theorem lowerTag_vehicle_year : lowerTag "Vehicle Year" = "year" := rfl

/-- The derived tag of the make field. -/
theorem lowerTag_vehicle_make : lowerTag "Vehicle Make" = "make" := rfl

/-- The derived tag of the model field. -/
theorem lowerTag_vehicle_model : lowerTag "Vehicle Model" = "model" := rfl

/-- C3 (amended). Every successfully emitted prospect contains a `vehicle`
element — it is emitted unconditionally, whether or not a nested vehicle
mapping is present — with fixed attributes `interest=buy` and
`status=used`; it always contains a `vin` and the placeholder empty `stock`
element, and it contains `year`/`make`/`model` sub-elements (tags derived by
lower-casing the second word of the source field names "Vehicle Year",
"Vehicle Make", "Vehicle Model") exactly when the corresponding value in
the nested mapping is present (truthy). -/
theorem vehicle_always_emitted :
    (∀ (lead : Value) (p : Xml), buildProspect lead = .ok p →
      hasChildTag p "vehicle" = true)
    ∧ (∀ (dv : List (String × Value)) (v : Xml), buildVehicle (VDict dv) = .ok v →
        attrsOf v = [("interest", "buy"), ("status", "used")]
        ∧ hasChildTag v "vin" = true
        ∧ hasChildTag v "stock" = true
        ∧ hasChildTag v "year" = truthy (dGet dv "Vehicle Year" (VStr ""))
        ∧ hasChildTag v "make" = truthy (dGet dv "Vehicle Make" (VStr ""))
        ∧ hasChildTag v "model" = truthy (dGet dv "Vehicle Model" (VStr ""))) := by
  constructor
  · intro lead p h
    cases lead with
    | VDict d =>
      simp only [buildProspect] at h
      cases hpp : prospectParts d with
      | error e => rw [hpp] at h; cases h
      | ok parts =>
        rw [hpp] at h
        cases h
        have hv := prospectParts_vehicle hpp
        have ht := buildVehicle_tag hv
        simp [assembleProspect, hasChildTag, childrenOf, tagOf, ht]
        exact Or.inl ht
    | VNull => cases h
    | VBool b => cases h
    | VInt n => cases h
    | VStr s => cases h
    | VList l => cases h
  · intro dv v h
    rcases buildVehicle_dict_shape h with ⟨vinT, hvin, rfl⟩
    cases hy : truthy (dGet dv "Vehicle Year" (VStr "")) <;>
    cases hk : truthy (dGet dv "Vehicle Make" (VStr "")) <;>
    cases hm : truthy (dGet dv "Vehicle Model" (VStr "")) <;>
    simp [hasChildTag, childrenOf, tagOf, attrsOf, ymmElems, hy, hk, hm,
      lowerTag_vehicle_year, lowerTag_vehicle_make, lowerTag_vehicle_model]

/-- Witness for C3 (amended): the `{"id": "42"}` record gets a vehicle
element though it has no vehicle mapping, and a vehicle mapping holding only
a year yields exactly the year sub-element next to `vin` and `stock`. -/
theorem vehicle_always_emitted_witness :
    hasChildTag (idOnlyProspect "42") "vehicle" = true
    ∧ (attrsOf (Xml.elem "vehicle" [("interest", "buy"), ("status", "used")] none
          [Xml.elem "vin" [] (some "") [],
           Xml.elem "year" [] (some "2015") [],
           Xml.elem "stock" [] (some "") []])
        = [("interest", "buy"), ("status", "used")]
       ∧ hasChildTag (Xml.elem "vehicle" [("interest", "buy"), ("status", "used")] none
          [Xml.elem "vin" [] (some "") [],
           Xml.elem "year" [] (some "2015") [],
           Xml.elem "stock" [] (some "") []]) "vin" = true
       ∧ hasChildTag (Xml.elem "vehicle" [("interest", "buy"), ("status", "used")] none
          [Xml.elem "vin" [] (some "") [],
           Xml.elem "year" [] (some "2015") [],
           Xml.elem "stock" [] (some "") []]) "stock" = true
       ∧ hasChildTag (Xml.elem "vehicle" [("interest", "buy"), ("status", "used")] none
          [Xml.elem "vin" [] (some "") [],
           Xml.elem "year" [] (some "2015") [],
           Xml.elem "stock" [] (some "") []]) "year"
          = truthy (dGet [("Vehicle Year", VStr "2015")] "Vehicle Year" (VStr ""))
       ∧ hasChildTag (Xml.elem "vehicle" [("interest", "buy"), ("status", "used")] none
          [Xml.elem "vin" [] (some "") [],
           Xml.elem "year" [] (some "2015") [],
           Xml.elem "stock" [] (some "") []]) "make"
          = truthy (dGet [("Vehicle Year", VStr "2015")] "Vehicle Make" (VStr ""))
       ∧ hasChildTag (Xml.elem "vehicle" [("interest", "buy"), ("status", "used")] none
          [Xml.elem "vin" [] (some "") [],
           Xml.elem "year" [] (some "2015") [],
           Xml.elem "stock" [] (some "") []]) "model"
          = truthy (dGet [("Vehicle Year", VStr "2015")] "Vehicle Model" (VStr ""))) :=
  ⟨vehicle_always_emitted.1 (VDict [("id", VStr "42")]) (idOnlyProspect "42") rfl,
   vehicle_always_emitted.2 [("Vehicle Year", VStr "2015")] _ rfl⟩

/-- Counterexample to C3 as stated: the record `{}` has no nested vehicle
mapping at all, yet its prospect contains a `vehicle` element. -/
theorem vehicle_without_mapping_counterexample :
    ¬ (∀ p, buildProspect (VDict []) = .ok p → hasChildTag p "vehicle" = false) := by
  intro h
  exact absurd (h (idOnlyProspect "") rfl) (by decide)

/-- Every successfully built prospect subtree is tagged `prospect`. -/
theorem buildProspect_tag {lead : Value} {p : Xml} (h : buildProspect lead = .ok p) :
    tagOf p = "prospect" := by
  cases lead with
  | VDict d =>
    simp only [buildProspect] at h
    cases hpp : prospectParts d with
    | error e => rw [hpp] at h; cases h
    | ok parts => rw [hpp] at h; cases h; rfl
  | VNull => cases h
  | VBool b => cases h
  | VInt n => cases h
  | VStr s => cases h
  | VList l => cases h

/-- A successful sequential map preserves length. -/
theorem mapME_ok_length {f : α → Except ε β} :
    ∀ {xs : List α} {ys : List β}, mapME f xs = .ok ys → ys.length = xs.length := by
  intro xs
  induction xs with
  | nil => intro ys h; cases h; rfl
  | cons a l ih =>
    intro ys h
    simp only [mapME, Bind.bind, Except.bind] at h
    cases hfa : f a with
    | error e => rw [hfa] at h; cases h
    | ok b =>
      rw [hfa] at h
      cases hml : mapME f l with
      | error e => rw [hml] at h; cases h
      | ok bs => rw [hml] at h; cases h; simp [ih hml]

/-- A successful sequential map sends the i-th input to the i-th output. -/
theorem mapME_ok_get {f : α → Except ε β} :
    ∀ {xs : List α} {ys : List β}, mapME f xs = .ok ys →
      ∀ (i : Nat) (h1 : i < xs.length) (h2 : i < ys.length),
        f (xs.get ⟨i, h1⟩) = .ok (ys.get ⟨i, h2⟩) := by
  intro xs
  induction xs with
  | nil => intro ys h i h1 h2; exact absurd h1 (Nat.not_lt_zero i)
  | cons a l ih =>
    intro ys h i h1 h2
    simp only [mapME, Bind.bind, Except.bind] at h
    cases hfa : f a with
    | error e => rw [hfa] at h; cases h
    | ok b =>
      rw [hfa] at h
      cases hml : mapME f l with
      | error e => rw [hml] at h; cases h
      | ok bs =>
        rw [hml] at h
        cases h
        cases i with
        | zero => simpa using hfa
        | succ j => exact ih hml j (Nat.lt_of_succ_lt_succ h1) (Nat.lt_of_succ_lt_succ h2)

/-- Every output of a successful sequential map comes from some input. -/
theorem mapME_ok_mem {f : α → Except ε β} :
    ∀ {xs : List α} {ys : List β}, mapME f xs = .ok ys →
      ∀ y ∈ ys, ∃ x ∈ xs, f x = .ok y := by
  intro xs
  induction xs with
  | nil => intro ys h y hy; cases h; cases hy
  | cons a l ih =>
    intro ys h y hy
    simp only [mapME, Bind.bind, Except.bind] at h
    cases hfa : f a with
    | error e => rw [hfa] at h; cases h
    | ok b =>
      rw [hfa] at h
      cases hml : mapME f l with
      | error e => rw [hml] at h; cases h
      | ok bs =>
        rw [hml] at h
        cases h
        rcases List.mem_cons.mp hy with rfl | hy2
        · exact ⟨a, List.Mem.head _, hfa⟩
        · rcases ih hml y hy2 with ⟨x, hx, hfx⟩
          exact ⟨x, List.mem_cons_of_mem _ hx, hfx⟩

/-- C4. For every non-empty input sequence on which the per-record loop
succeeds, the produced document is the serialization of the `adf` root whose
children are exactly the per-record prospects: one `prospect` element per
input record, in input order (the i-th prospect is built from the i-th
record). -/
theorem generate_one_prospect_per_lead :
    ∀ (leads : List Value) (ps : List Xml),
      leads ≠ [] →
      mapME buildProspect leads = .ok ps →
      generate_adf_xml leads
          = .ok (some (tostring (Xml.elem "adf" [] none ps)), [])
        ∧ ps.length = leads.length
        ∧ (∀ p ∈ ps, tagOf p = "prospect")
        ∧ ∀ (i : Nat) (h1 : i < leads.length) (h2 : i < ps.length),
            buildProspect (leads.get ⟨i, h1⟩) = .ok (ps.get ⟨i, h2⟩) := by
  intro leads ps hne hmap
  refine ⟨?_, mapME_ok_length hmap, ?_, fun i h1 h2 => mapME_ok_get hmap i h1 h2⟩
  · have hie : leads.isEmpty = false := by
      cases leads
      · exact absurd rfl hne
      · rfl
    simp [generate_adf_xml, hie, adfRoot, hmap, Except.map]
  · intro p hp
    rcases mapME_ok_mem hmap p hp with ⟨x, _, hfx⟩
    exact buildProspect_tag hfx

/-- Witness for C4 at the one-record input `[{}]`. -/
theorem generate_one_prospect_per_lead_witness :
    generate_adf_xml [VDict []]
        = .ok (some (tostring (Xml.elem "adf" [] none [idOnlyProspect ""])), [])
    ∧ ([idOnlyProspect ""] : List Xml).length = [(VDict [] : Value)].length :=
  ⟨(generate_one_prospect_per_lead [VDict []] [idOnlyProspect ""]
      (by simp) (by rfl)).1,
   (generate_one_prospect_per_lead [VDict []] [idOnlyProspect ""]
      (by simp) (by rfl)).2.1⟩

/-- A serialized document is never the empty byte string (it at least ends
with the newline after the root's closing tag). -/
theorem tostring_ne_empty (x : Xml) : tostring x ≠ "" := by
  unfold tostring
  intro h
  have h2 := congrArg String.length h
  rw [String.length_append] at h2
  have h3 : ("\n" : String).length = 1 := rfl
  have h4 : ("" : String).length = 0 := rfl
  rw [h3, h4] at h2
  omega

/-- On a one-record input, `generate_adf_xml` never returns the `None`
document: the empty-input branch is not taken, so the result is either an
exception or a serialized document. -/
theorem generate_single_not_none (b : Value) (logs : List String) :
    generate_adf_xml [b] ≠ .ok (none, logs) := by
  unfold generate_adf_xml
  cases har : adfRoot [b] with
  | error e => simp [har, Except.map]
  | ok root => simp [har, Except.map]

/-- C9 (amended). Whenever `generate_adf_xml` returns normally on a
non-empty input it returns a document (`some`), and that document is a
non-empty string; consequently the webhook's 400 branch for "no valid ADF
XML generated" is unreachable — no request, whatever its body, is ever
answered with that response. -/
theorem generate_nonempty_document :
    (∀ (leads : List Value) (r : Option String × List String),
      leads ≠ [] → generate_adf_xml leads = .ok r →
      ∃ doc, r.1 = some doc ∧ doc ≠ "")
    ∧ (∀ (importEmail : String) (st : ServerState) (b : Value),
        (handle_webhook importEmail st b).2.1
          ≠ ⟨400, "error", "Error processing lead (no valid ADF XML generated)"⟩) := by
  constructor
  · intro leads r hne hok
    have hie : leads.isEmpty = false := by
      cases leads
      · exact absurd rfl hne
      · rfl
    rw [generate_adf_xml, hie] at hok
    cases har : adfRoot leads with
    | error e => rw [har] at hok; cases hok
    | ok root =>
      rw [har] at hok
      cases hok
      exact ⟨tostring root, rfl, tostring_ne_empty root⟩
  · intro mail st b
    unfold handle_webhook
    by_cases hb : truthy b = false
    · rw [if_pos hb]; simp
    · rw [if_neg hb]
      cases b with
      | VDict d =>
        dsimp only
        by_cases hh : hashable (dGet d "id" VNull) = false
        · rw [if_pos hh]; simp
        · rw [if_neg hh]
          by_cases hm : pyMem (dGet d "id" VNull) st.processed_leads = true
          · rw [if_pos hm]; simp [dupResponse]
          · rw [if_neg hm]
            cases hg : generate_adf_xml [VDict d] with
            | error e => cases e <;> simp [errToResponse]
            | ok pr =>
              rcases pr with ⟨od, logs⟩
              cases od with
              | some xml => simp
              | none => exact absurd hg (generate_single_not_none _ _)
      | VNull => simp [errToResponse]
      | VBool bb => simp [errToResponse]
      | VInt n => simp [errToResponse]
      | VStr s => simp [errToResponse]
      | VList l => simp [errToResponse]

/-- Witness for C9 (amended) at the one-record input `[{}]`. -/
theorem generate_nonempty_document_witness :
    ∃ doc, ((some (tostring (Xml.elem "adf" [] none [idOnlyProspect ""])),
        ([] : List String)) : Option String × List String).1 = some doc ∧ doc ≠ "" :=
  generate_nonempty_document.1 [VDict []]
    (some (tostring (Xml.elem "adf" [] none [idOnlyProspect ""])), [])
    (by simp) (by rfl)

/-- Counterexample to C9 as stated: `[{"Additional Info": "x"}]` is a
non-empty list of string-keyed mapping records, yet `generate_adf_xml` does
not return a document at all — it raises `AttributeError` (the string value
has no `.get`). -/
theorem generate_mapping_record_raises_counterexample :
    generate_adf_xml [VDict [("Additional Info", VStr "x")]]
      = .error .attributeError := rfl

/-- Python equality is reflexive on hashable values (the only values that
can enter the dedup set). -/
theorem pyEq_refl (v : Value) (hh : hashable v = true) : pyEq v v = true := by
  cases v <;> simp_all [pyEq, hashable]

/-- An id just appended to the dedup set is a member. -/
theorem pyMem_append_self (v : Value) (hh : hashable v = true) (l : List Value) :
    pyMem v (l ++ [v]) = true := by
  simp [pyMem, pyEq_refl v hh]

/-- main.py lines 175-177: a truthy mapping body whose id is already in the
dedup set is answered with the duplicate success response, with no state
change and no side effect. -/
theorem handle_webhook_duplicate {mail : String} {s : ServerState}
    {d : List (String × Value)} {v : Value}
    (hb : truthy (VDict d) = true) (hid : dGet d "id" VNull = v)
    (hh : hashable v = true) (hm : pyMem v s.processed_leads = true) :
    handle_webhook mail s (VDict d) = (s, dupResponse, []) := by
  unfold handle_webhook
  rw [if_neg (by simp [hb])]
  dsimp only
  rw [hid, if_neg (by simp [hh]), if_pos hm]

/-- After any truthy mapping request with a hashable id, that id is in the
dedup set — whether the transformer succeeded or raised (main.py line 179
adds it before line 181 runs the transformer). -/
theorem handle_webhook_mem_after (mail : String) (s : ServerState)
    (d : List (String × Value)) (v : Value)
    (hb : truthy (VDict d) = true) (hid : dGet d "id" VNull = v)
    (hh : hashable v = true) :
    pyMem v (handle_webhook mail s (VDict d)).1.processed_leads = true := by
  unfold handle_webhook
  rw [if_neg (by simp [hb])]
  dsimp only
  rw [hid]
  by_cases hm : pyMem v s.processed_leads = true
  · rw [if_neg (by simp [hh]), if_pos hm]
    exact hm
  · rw [if_neg (by simp [hh]), if_neg hm]
    cases hg : generate_adf_xml [VDict d] with
    | error e => exact pyMem_append_self v hh s.processed_leads
    | ok pr =>
      rcases pr with ⟨od, logs⟩
      cases od with
      | some xml => exact pyMem_append_self v hh s.processed_leads
      | none => exact absurd hg (generate_single_not_none _ _)

/-- C7. Posting a second request carrying the same identifier within one
process lifetime yields the success+duplicate response, no side effect
(no file write, no e-mail), and no state change — so a given identifier
triggers at most one downstream transform+notify cycle. -/
theorem webhook_duplicate_id_second_request :
    ∀ (mail : String) (s : ServerState) (d1 d2 : List (String × Value)) (v : Value),
      truthy (VDict d1) = true → truthy (VDict d2) = true →
      dGet d1 "id" VNull = v → dGet d2 "id" VNull = v →
      hashable v = true →
      handle_webhook mail (handle_webhook mail s (VDict d1)).1 (VDict d2)
        = ((handle_webhook mail s (VDict d1)).1, dupResponse, []) := by
  intro mail s d1 d2 v h1 h2 hid1 hid2 hh
  exact handle_webhook_duplicate h2 hid2 hh
    (handle_webhook_mem_after mail s d1 v h1 hid1 hh)

/-- Witness for C7: the id "L1" posted twice from the fresh state. -/
theorem webhook_duplicate_id_second_request_witness :
    handle_webhook "m" (handle_webhook "m" ⟨[]⟩ (VDict [("id", VStr "L1")])).1
        (VDict [("id", VStr "L1")])
      = ((handle_webhook "m" ⟨[]⟩ (VDict [("id", VStr "L1")])).1, dupResponse, []) :=
  webhook_duplicate_id_second_request "m" ⟨[]⟩ _ _ (VStr "L1") rfl rfl rfl rfl rfl

/-- C8. The webhook inserts the id into the dedup set before running the
transformer: when `generate_adf_xml` raises on the lead, the request is
answered by the error mapping with no side effect, yet the id is now in the
set, and every later truthy mapping request with that id is answered with
the duplicate success response — although no document or e-mail was ever
produced for it. -/
theorem webhook_id_added_before_transform :
    ∀ (mail : String) (s : ServerState) (d : List (String × Value))
      (v : Value) (e : PyErr),
      truthy (VDict d) = true →
      dGet d "id" VNull = v →
      hashable v = true →
      pyMem v s.processed_leads = false →
      generate_adf_xml [VDict d] = .error e →
      handle_webhook mail s (VDict d)
          = (⟨s.processed_leads ++ [v]⟩, errToResponse e, [])
        ∧ pyMem v (handle_webhook mail s (VDict d)).1.processed_leads = true
        ∧ ∀ (d2 : List (String × Value)),
            truthy (VDict d2) = true → dGet d2 "id" VNull = v →
            handle_webhook mail (handle_webhook mail s (VDict d)).1 (VDict d2)
              = ((handle_webhook mail s (VDict d)).1, dupResponse, []) := by
  intro mail s d v e hb hid hh hm hg
  have hfirst : handle_webhook mail s (VDict d)
      = (⟨s.processed_leads ++ [v]⟩, errToResponse e, []) := by
    unfold handle_webhook
    rw [if_neg (by simp [hb])]
    dsimp only
    rw [hid, if_neg (by simp [hh]), if_neg (by simp [hm]), hg]
  refine ⟨hfirst, ?_, ?_⟩
  · rw [hfirst]
    exact pyMem_append_self v hh s.processed_leads
  · intro d2 hb2 hid2
    exact handle_webhook_duplicate hb2 hid2 hh
      (by rw [hfirst]; exact pyMem_append_self v hh s.processed_leads)

/-- Witness for C8: `{"id": "9", "Additional Info": "bad"}` makes the
transformer raise `AttributeError`, yet "9" is recorded as processed. -/
theorem webhook_id_added_before_transform_witness :
    handle_webhook "m" ⟨[]⟩ (VDict [("id", VStr "9"), ("Additional Info", VStr "bad")])
        = (⟨([] : List Value) ++ [VStr "9"]⟩, errToResponse .attributeError, [])
    ∧ pyMem (VStr "9") (handle_webhook "m" ⟨[]⟩
        (VDict [("id", VStr "9"), ("Additional Info", VStr "bad")])).1.processed_leads
      = true :=
  ⟨(webhook_id_added_before_transform "m" ⟨[]⟩
      [("id", VStr "9"), ("Additional Info", VStr "bad")] (VStr "9") .attributeError
      rfl rfl rfl rfl rfl).1,
   (webhook_id_added_before_transform "m" ⟨[]⟩
      [("id", VStr "9"), ("Additional Info", VStr "bad")] (VStr "9") .attributeError
      rfl rfl rfl rfl rfl).2.1⟩

/-- C10. A non-empty mapping body with no `id` key is deduplicated on the
absent value: `lead_data.get("id")` yields `None`, the first such request
is processed normally (`None` enters the dedup set and the response is not
the duplicate one), and every later id-less truthy mapping request is
answered with the duplicate success response, with no state change and no
side effect. -/
theorem webhook_idless_dedup :
    ∀ (mail : String) (s : ServerState) (d : List (String × Value)),
      truthy (VDict d) = true →
      dGet d "id" VNull = VNull →
      pyMem VNull s.processed_leads = false →
      pyMem VNull (handle_webhook mail s (VDict d)).1.processed_leads = true
      ∧ (handle_webhook mail s (VDict d)).2.1 ≠ dupResponse
      ∧ ∀ (d2 : List (String × Value)),
          truthy (VDict d2) = true → dGet d2 "id" VNull = VNull →
          handle_webhook mail (handle_webhook mail s (VDict d)).1 (VDict d2)
            = ((handle_webhook mail s (VDict d)).1, dupResponse, []) := by
  intro mail s d hb hid hm
  have hmem := handle_webhook_mem_after mail s d VNull hb hid rfl
  refine ⟨hmem, ?_, fun d2 hb2 hid2 => handle_webhook_duplicate hb2 hid2 rfl hmem⟩
  unfold handle_webhook
  rw [if_neg (by simp [hb])]
  dsimp only
  rw [hid, if_neg (by simp [hashable]), if_neg (by simp [hm])]
  cases hg : generate_adf_xml [VDict d] with
  | error e => cases e <;> simp [errToResponse, dupResponse]
  | ok pr =>
    rcases pr with ⟨od, logs⟩
    cases od with
    | some xml => simp [dupResponse]
    | none => exact absurd hg (generate_single_not_none _ _)

/-- Witness for C10: the id-less body `{"x": "1"}` from the fresh state. -/
theorem webhook_idless_dedup_witness :
    pyMem VNull (handle_webhook "m" ⟨[]⟩
        (VDict [("x", VStr "1")])).1.processed_leads = true
    ∧ (handle_webhook "m" ⟨[]⟩ (VDict [("x", VStr "1")])).2.1 ≠ dupResponse :=
  ⟨(webhook_idless_dedup "m" ⟨[]⟩ [("x", VStr "1")] rfl rfl rfl).1,
   (webhook_idless_dedup "m" ⟨[]⟩ [("x", VStr "1")] rfl rfl rfl).2.1⟩
